import Mathlib

/-!
Shallow embedding of the demikernel network libOS facade
(`src/rust/demikernel/libos/network/libos.rs`) and the IPv4 demultiplexer
(`src/rust/inetstack/protocols/peer.rs`).

Collaborators that are declared elsewhere in the repository (the shared
runtime's queue table and socket-identity index, `SharedNetworkQueue`,
`Ipv4Header::parse`, `SOMAXCONN`, `POP_SIZE_MAX`, and the PDPIX-layer
argument checks) are modelled from the specification; each such definition
carries a doc comment starting with `Modelled from the spec:`.
Transport calls awaited by the coroutines are passed in as explicit
oracle arguments (their `Result` value), since the transport is an
external collaborator behind the `NetworkTransport` contract.
-/

namespace Demikernel

/-! ### Errno constants (POSIX, as used via `libc`) -/

def EBADF : Nat := 9
def EINVAL : Nat := 22
def ENOTSUP : Nat := 95
def EADDRINUSE : Nat := 98

/-- Embeds `Fail` from `runtime/fail.rs`: a POSIX-style errno plus a human cause string. -/
structure Fail where
  errno : Nat
  cause : String
deriving DecidableEq

/-! ### Addresses -/

/-- Embeds `std::net::Ipv4Addr` as its 32-bit value. -/
abbrev Ipv4Addr := Nat

def Ipv4Addr.UNSPECIFIED : Ipv4Addr := 0

def Ipv4Addr.BROADCAST : Ipv4Addr := 0xFFFFFFFF

/-- Embeds `Ipv4Addr::is_broadcast`: true exactly for 255.255.255.255. -/
def Ipv4Addr.is_broadcast (a : Ipv4Addr) : Bool := a == Ipv4Addr.BROADCAST

/-- Embeds `std::net::SocketAddrV4`. -/
structure SocketAddrV4 where
  ip : Ipv4Addr
  port : Nat
deriving DecidableEq

/-- Embeds `std::net::SocketAddr`: an IPv4 or an IPv6 endpoint. The IPv6
address payload is irrelevant to the libOS (it is always rejected), so only
its port is kept. -/
inductive SocketAddr where
  | V4 (addr : SocketAddrV4)
  | V6 (port : Nat)
deriving DecidableEq

/-- Embeds `SocketAddr::port`. -/
def SocketAddr.port : SocketAddr → Nat
  | .V4 a => a.port
  | .V6 p => p

/-- Modelled from the spec: `unwrap_socketaddr` (declared in
`runtime/network`, not under `src/`) extracts the IPv4 endpoint and fails
for IPv6 ones, in line with the spec's "IPv6 routing" non-goal. -/
def unwrap_socketaddr : SocketAddr → Except Fail SocketAddrV4
  | .V4 a => .ok a
  | .V6 _ => .error ⟨EINVAL, "address family not supported"⟩

/-! ### Buffers, socket constants -/

/-- Embeds `DemiBuffer` as its byte contents. -/
abbrev DemiBuffer := List Nat

/-- Embeds `socket2::Domain` as the raw address-family integer. -/
abbrev Domain := Nat

def Domain.IPV4 : Domain := 2

def Domain.IPV6 : Domain := 10

/-- Embeds `socket2::Type` as the raw socket-type integer. -/
abbrev SockType := Nat

def SockType.STREAM : SockType := 1

def SockType.DGRAM : SockType := 2

/-- Modelled from the spec: `pal::constants::SOMAXCONN` is not under
`src/`; the spec only requires backlog to lie in `[1, SOMAXCONN]`. -/
def SOMAXCONN : Nat := 128

/-- Modelled from the spec: `runtime::limits::POP_SIZE_MAX` is not under
`src/`; the spec only requires the optional pop size to lie in
`(0, POP_SIZE_MAX]`. -/
def POP_SIZE_MAX : Nat := 9216

/-! ### Queues (spec-modelled `SharedNetworkQueue`) -/

/-- Modelled from the spec: the per-queue socket state machine of §4.4. -/
inductive SocketState where
  | Unbound | Bound | Listening | Connecting | Connected | Closing | Closed
deriving DecidableEq

/-- Modelled from the spec: `SharedNetworkQueue` (declared in
`demikernel/libos/network/queue.rs`, not under `src/`): address family and
type, state, and the optional local/remote endpoints (IPv4 only, per the
spec's data model §3). -/
structure NetworkQueue where
  domain : Domain
  typ : SockType
  state : SocketState
  local_addr : Option SocketAddrV4
  remote_addr : Option SocketAddrV4
deriving DecidableEq

/-- Modelled from the spec: queue-level `bind` transitions Unbound to
Bound and records the local endpoint; any other pre-state is an
EINVAL-class error (§4.4). -/
def NetworkQueue.bind (q : NetworkQueue) (localv4 : SocketAddrV4) : Except Fail NetworkQueue :=
  match q.state with
  | .Unbound => .ok { q with state := .Bound, local_addr := some localv4 }
  | _ => .error ⟨EINVAL, "invalid state transition for bind"⟩

/-- Modelled from the spec: queue-level `listen` transitions Bound to
Listening; any other pre-state is an EINVAL-class error (§4.4). -/
def NetworkQueue.listen (q : NetworkQueue) (_backlog : Nat) : Except Fail NetworkQueue :=
  match q.state with
  | .Bound => .ok { q with state := .Listening }
  | _ => .error ⟨EINVAL, "invalid state transition for listen"⟩

/-- Modelled from the spec: the state gate run by the queue before an
asynchronous operation is scheduled; scheduling in Closing or Closed
fails EBADF-class, a disallowed pre-state fails EINVAL-class (§4.4). -/
def NetworkQueue.gate (q : NetworkQueue) (allowed : SocketState → Bool) : Except Fail Unit :=
  if q.state = .Closing ∨ q.state = .Closed then .error ⟨EBADF, "queue is closing or closed"⟩
  else if allowed q.state then .ok () else .error ⟨EINVAL, "operation not allowed in current state"⟩

/-- Modelled from the spec: pre-states in which push may be scheduled (§4.4). -/
def pushAllowed : SocketState → Bool
  | .Connected => true
  | _ => false

/-- Modelled from the spec: pre-states in which pushto may be scheduled (§4.4). -/
def pushtoAllowed : SocketState → Bool
  | .Bound => true
  | .Connected => true
  | _ => false

/-- Modelled from the spec: pre-states in which pop may be scheduled (§4.4). -/
def popAllowed (typ : SockType) : SocketState → Bool
  | .Bound => typ == SockType.DGRAM
  | .Connected => true
  | _ => false

/-! ### Socket identities and association lists -/

/-- Embeds `SocketId` from `runtime/network/socket.rs` (declared outside
`src/`, shape per the spec's data model §3). -/
inductive SocketId where
  | Passive (addr : SocketAddrV4)
  | Active (local_ep remote_ep : SocketAddrV4)
deriving DecidableEq

/-- Lookup in an association list, the map backing the queue table and the
socket-identity index. -/
def alistLookup {κ α : Type} [DecidableEq κ] : List (κ × α) → κ → Option α
  | [], _ => none
  | p :: rest, k => if p.1 = k then some p.2 else alistLookup rest k

/-- Removal of a key from an association list. -/
def alistErase {κ α : Type} [DecidableEq κ] : List (κ × α) → κ → List (κ × α)
  | [], _ => []
  | p :: rest, k => if p.1 = k then alistErase rest k else p :: alistErase rest k

/-- Insertion (with replacement) into an association list. -/
def alistInsert {κ α : Type} [DecidableEq κ] (l : List (κ × α)) (k : κ) (v : α) :
    List (κ × α) :=
  (k, v) :: alistErase l k

/-! ### The libOS state -/

/-- The state the facade and its coroutines act on: the queue table and the
socket-identity index (spec component C2), the scheduled tasks (C3,
recorded by name in scheduling order) and the next queue token. -/
structure LibOSState where
  qtable : List (Nat × NetworkQueue)
  sockIdToQd : List (SocketId × Nat)
  tasks : List String
  nextQToken : Nat
deriving DecidableEq

def emptyState : LibOSState := ⟨[], [], [], 0⟩

/-- Modelled from the spec: `SharedDemiRuntime::get_shared_queue` (not
under `src/`) returns the queue or an EBADF-class failure when the
descriptor is absent (§7: "descriptor absent at lookup time"). -/
def qtable_get (s : LibOSState) (qd : Nat) : Except Fail NetworkQueue :=
  match alistLookup s.qtable qd with
  | some q => .ok q
  | none => .error ⟨EBADF, "bad queue descriptor"⟩

/-- Modelled from the spec: `addr_in_use` consults the secondary
socket-identity index for the `Passive` identity of the endpoint (§4.1). -/
def addr_in_use (s : LibOSState) (localv4 : SocketAddrV4) : Bool :=
  (alistLookup s.sockIdToQd (SocketId.Passive localv4)).isSome

/-- Modelled from the spec: `insert_socket_id_to_qd` maintains the
secondary index (§4.1). -/
def insert_socket_id_to_qd (s : LibOSState) (id : SocketId) (qd : Nat) : LibOSState :=
  { s with sockIdToQd := alistInsert s.sockIdToQd id qd }

/-- Modelled from the spec: `remove_socket_id_to_qd` maintains the
secondary index (§4.1). -/
def remove_socket_id_to_qd (s : LibOSState) (id : SocketId) : LibOSState :=
  { s with sockIdToQd := alistErase s.sockIdToQd id }

/-- Modelled from the spec: the queue table assigns the smallest free
integer descriptor (§4.1). The fuel is `length + 1`, which always
suffices by pigeonhole. -/
def freeSlotAux (l : List (Nat × NetworkQueue)) : Nat → Nat → Nat
  | 0, cand => cand
  | fuel + 1, cand =>
    if (alistLookup l cand).isNone then cand else freeSlotAux l fuel (cand + 1)

/-- Modelled from the spec: the smallest descriptor not bound in the table. -/
def freeSlot (l : List (Nat × NetworkQueue)) : Nat := freeSlotAux l (l.length + 1) 0

/-- Modelled from the spec: `alloc_queue` stores the queue under a fresh
descriptor and returns the descriptor (§4.1). -/
def alloc_queue (s : LibOSState) (q : NetworkQueue) : Nat × LibOSState :=
  let qd := freeSlot s.qtable
  (qd, { s with qtable := alistInsert s.qtable qd q })

/-- Modelled from the spec: `free_queue` removes the queue from the table
(§4.1). -/
def free_queue (s : LibOSState) (qd : Nat) : LibOSState :=
  { s with qtable := alistErase s.qtable qd }

/-- Modelled from the spec: `insert_coroutine_with_tracking` registers the
coroutine under a human-readable task name and yields a token (§4.2). -/
def insert_coroutine (s : LibOSState) (name : String) : Nat × LibOSState :=
  (s.nextQToken, { s with tasks := s.tasks ++ [name], nextQToken := s.nextQToken + 1 })

/-! ### Operation results and coroutine outcomes -/

/-- Embeds `OperationResult` from `runtime/queue` (shape per the spec's
data model §3 and the uses in `libos.rs`). -/
inductive OperationResult where
  | Accept (new_qd : Nat) (remote : SocketAddrV4)
  | Connect
  | Push
  | Pop (remote : Option SocketAddrV4) (buf : DemiBuffer)
  | Close
  | Failed (e : Fail)
deriving DecidableEq

/-- The outcome of running one libOS coroutine to completion: the
`(QDesc, OperationResult)` pair it returns, the state it leaves behind,
and whether the transport operation was awaited at all. An `expect` that
would fire in the Rust source is a `panicked` outcome. -/
inductive CoroOutcome where
  | completed (qd : Nat) (res : OperationResult) (s : LibOSState) (transportInvoked : Bool)
  | panicked (msg : String)
deriving DecidableEq

/-! ### The facade: synchronous entry points (`libos.rs`) -/

/-- Modelled from the spec: `clone_sgarray` materializes the
scatter-gather array into a `DemiBuffer`; the array is embedded as the
buffer it denotes. -/
def clone_sgarray (sga : DemiBuffer) : DemiBuffer := sga

/-- Embeds `SharedNetworkLibOS::socket` (libos.rs:97): reject non-IPv4
domains and non-stream, non-datagram types with ENOTSUP, then create the
underlying queue (the transport-backed constructor is the `create`
oracle) and allocate a descriptor for it. -/
def socket (s : LibOSState) (create : Except Fail NetworkQueue) (domain : Domain)
    (typ : SockType) : Except Fail Nat × LibOSState :=
  if domain ≠ Domain.IPV4 then
    (.error ⟨ENOTSUP, "communication domain not supported"⟩, s)
  else if typ ≠ SockType.STREAM ∧ typ ≠ SockType.DGRAM then
    (.error ⟨ENOTSUP, "socket type not supported"⟩, s)
  else
    match create with
    | .error e => (.error e, s)
    | .ok q =>
      let (qd, s') := alloc_queue s q
      (.ok qd, s')

/-- Embeds `SharedNetworkLibOS::bind` (libos.rs:120): unwrap the IPv4
endpoint, reject the wildcard address and port zero with ENOTSUP, fail
with EADDRINUSE when the endpoint is occupied, then perform the
queue-level bind and only afterwards insert the `Passive` identity into
the socket-identity index. -/
def bind (s : LibOSState) (qd : Nat) (local_addr : SocketAddr) :
    Except Fail Unit × LibOSState :=
  match unwrap_socketaddr local_addr with
  | .error e => (.error e, s)
  | .ok localv4 =>
    if localv4.ip = Ipv4Addr.UNSPECIFIED then
      (.error ⟨ENOTSUP, "cannot bind to wildcard address"⟩, s)
    else if local_addr.port = 0 then
      (.error ⟨ENOTSUP, "cannot bind to port 0"⟩, s)
    else if addr_in_use s localv4 then
      (.error ⟨EADDRINUSE, "address is already bound to a socket"⟩, s)
    else
      match qtable_get s qd with
      | .error e => (.error e, s)
      | .ok q =>
        match q.bind localv4 with
        | .error e => (.error e, s)
        | .ok q' =>
          let s' := { s with qtable := alistInsert s.qtable qd q' }
          (.ok (), insert_socket_id_to_qd s' (SocketId.Passive localv4) qd)

/-- Embeds `SharedNetworkLibOS::listen` (libos.rs:157): look up the queue
and issue the queue-level listen. The backlog range was already checked
at the PDPIX layer (the code only `debug_assert!`s it here). -/
def listen (s : LibOSState) (qd : Nat) (backlog : Nat) :
    Except Fail Unit × LibOSState :=
  match qtable_get s qd with
  | .error e => (.error e, s)
  | .ok q =>
    match q.listen backlog with
    | .error e => (.error e, s)
    | .ok q' => (.ok (), { s with qtable := alistInsert s.qtable qd q' })

/-- Modelled from the spec: the PDPIX layer validates the backlog before
`SharedNetworkLibOS::listen` runs — backlog outside `[1, SOMAXCONN]` is
rejected with EINVAL (§6, §8: listen(0) or listen(SOMAXCONN+1) give
EINVAL). -/
def pdpix_listen (s : LibOSState) (qd : Nat) (backlog : Nat) :
    Except Fail Unit × LibOSState :=
  if backlog = 0 ∨ backlog > SOMAXCONN then
    (.error ⟨EINVAL, "invalid backlog"⟩, s)
  else listen s qd backlog

/-- Embeds `SharedNetworkLibOS::push` (libos.rs:321): clone the
scatter-gather array, reject a zero-length buffer with EINVAL, then look
up the queue and schedule the push coroutine through the queue's state
gate. -/
def push (s : LibOSState) (qd : Nat) (sga : DemiBuffer) :
    Except Fail Nat × LibOSState :=
  let buf := clone_sgarray sga
  if buf.length = 0 then (.error ⟨EINVAL, "zero-length buffer"⟩, s)
  else
    match qtable_get s qd with
    | .error e => (.error e, s)
    | .ok q =>
      match q.gate pushAllowed with
      | .error e => (.error e, s)
      | .ok _ =>
        let (tok, s') := insert_coroutine s ("NetworkLibOS::push for qd=" ++ Nat.repr qd)
        (.ok tok, s')

/-- Embeds `SharedNetworkLibOS::pushto` (libos.rs:366): same zero-length
check as push, then schedule the pushto coroutine (through the queue's
`push` gate, as in the source). -/
def pushto (s : LibOSState) (qd : Nat) (sga : DemiBuffer) (_remote : SocketAddr) :
    Except Fail Nat × LibOSState :=
  let buf := clone_sgarray sga
  if buf.length = 0 then (.error ⟨EINVAL, "zero-length buffer"⟩, s)
  else
    match qtable_get s qd with
    | .error e => (.error e, s)
    | .ok q =>
      match q.gate pushtoAllowed with
      | .error e => (.error e, s)
      | .ok _ =>
        let (tok, s') := insert_coroutine s ("NetworkLibOS::pushto for qd=" ++ Nat.repr qd)
        (.ok tok, s')

/-- Embeds `SharedNetworkLibOS::pop` (libos.rs:417): look up the queue and
schedule the pop coroutine. The size range was already checked at the
PDPIX layer (the code only `debug_assert!`s it here). -/
def pop (s : LibOSState) (qd : Nat) (_size : Option Nat) :
    Except Fail Nat × LibOSState :=
  match qtable_get s qd with
  | .error e => (.error e, s)
  | .ok q =>
    match q.gate (popAllowed q.typ) with
    | .error e => (.error e, s)
    | .ok _ =>
      let (tok, s') := insert_coroutine s ("NetworkLibOS::pop for qd=" ++ Nat.repr qd)
      (.ok tok, s')

/-- Modelled from the spec: the PDPIX layer validates the optional pop
size before `SharedNetworkLibOS::pop` runs — `Some(sz)` with `sz`
outside `(0, POP_SIZE_MAX]` is rejected with EINVAL synchronously (§6,
§8). -/
def pdpix_pop (s : LibOSState) (qd : Nat) (size : Option Nat) :
    Except Fail Nat × LibOSState :=
  match size with
  | some sz =>
    if sz = 0 ∨ sz > POP_SIZE_MAX then (.error ⟨EINVAL, "invalid pop size"⟩, s)
    else pop s qd size
  | none => pop s qd none

/-! ### The coroutines (`libos.rs`)

Each coroutine first re-fetches the queue from the table; the awaited
transport call is the explicit oracle argument. -/

/-- Embeds `SharedNetworkLibOS::accept_coroutine` (libos.rs:189): re-fetch
the queue (EBADF failure if freed), await the transport accept, then
allocate a descriptor for the new queue; an accepted queue without a
remote endpoint would trip the source's `expect`. -/
def accept_coroutine (s : LibOSState) (qd : Nat)
    (transportAccept : Except Fail NetworkQueue) : CoroOutcome :=
  match qtable_get s qd with
  | .error e => .completed qd (.Failed e) s false
  | .ok _ =>
    match transportAccept with
    | .ok new_queue =>
      match new_queue.remote_addr with
      | some addr =>
        let (new_qd, s') := alloc_queue s new_queue
        .completed qd (.Accept new_qd addr) s' true
      | none => .panicked "An accepted socket must have a remote address"
    | .error e => .completed qd (.Failed e) s true

/-- Embeds `SharedNetworkLibOS::connect_coroutine` (libos.rs:243): re-fetch
the queue (EBADF failure if freed), await the transport connect. -/
def connect_coroutine (s : LibOSState) (qd : Nat) (_remote : SocketAddr)
    (transportConnect : Except Fail Unit) : CoroOutcome :=
  match qtable_get s qd with
  | .error e => .completed qd (.Failed e) s false
  | .ok _ =>
    match transportConnect with
    | .ok _ => .completed qd .Connect s true
    | .error e => .completed qd (.Failed e) s true

/-- Embeds `SharedNetworkLibOS::close_coroutine` (libos.rs:285): re-fetch
the queue (EBADF failure if freed), await the transport close; on
success, remove the queue's `Passive` identity when it was bound, then
free the queue from the table and produce Close; on failure produce
`Failed` and leave the state untouched. -/
def close_coroutine (s : LibOSState) (qd : Nat)
    (transportClose : Except Fail Unit) : CoroOutcome :=
  match qtable_get s qd with
  | .error e => .completed qd (.Failed e) s false
  | .ok queue =>
    match transportClose with
    | .ok _ =>
      let s1 :=
        match queue.local_addr with
        | some l => remove_socket_id_to_qd s (SocketId.Passive l)
        | none => s
      .completed qd .Close (free_queue s1 qd) true
    | .error e => .completed qd (.Failed e) s true

/-- Embeds `SharedNetworkLibOS::push_coroutine` (libos.rs:345): re-fetch
the queue (EBADF failure if freed), await the transport send. -/
def push_coroutine (s : LibOSState) (qd : Nat) (_buf : DemiBuffer)
    (transportPush : Except Fail Unit) : CoroOutcome :=
  match qtable_get s qd with
  | .error e => .completed qd (.Failed e) s false
  | .ok _ =>
    match transportPush with
    | .ok _ => .completed qd .Push s true
    | .error e => .completed qd (.Failed e) s true

/-- Embeds `SharedNetworkLibOS::pushto_coroutine` (libos.rs:390): re-fetch
the queue (EBADF failure if freed), await the transport send to the
remote endpoint. -/
def pushto_coroutine (s : LibOSState) (qd : Nat) (_buf : DemiBuffer)
    (_remote : SocketAddr) (transportPush : Except Fail Unit) : CoroOutcome :=
  match qtable_get s qd with
  | .error e => .completed qd (.Failed e) s false
  | .ok _ =>
    match transportPush with
    | .ok _ => .completed qd .Push s true
    | .error e => .completed qd (.Failed e) s true

/-- Embeds `SharedNetworkLibOS::pop_coroutine` (libos.rs:439): re-fetch
the queue (EBADF failure if freed), await the transport receive and
produce `Pop` with the optional source endpoint (IPv4 only, per the
spec's data model). -/
def pop_coroutine (s : LibOSState) (qd : Nat) (_size : Option Nat)
    (transportPop : Except Fail (Option SocketAddrV4 × DemiBuffer)) : CoroOutcome :=
  match qtable_get s qd with
  | .error e => .completed qd (.Failed e) s false
  | .ok _ =>
    match transportPop with
    | .ok (addr, buf) => .completed qd (.Pop addr buf) s true
    | .error e => .completed qd (.Failed e) s true

/-! ### The IPv4 demultiplexer (`peer.rs`) -/

/-- Embeds `IpProtocol` from `inetstack/protocols/ip.rs`: the protocols
the stack understands (the header parser rejects any other protocol
number). -/
inductive IpProtocol where
  | ICMPv4 | TCP | UDP
deriving DecidableEq

/-- Embeds the part of `Ipv4Header` the demultiplexer reads: the
destination address and the protocol field. -/
structure Ipv4Header where
  dest_addr : Ipv4Addr
  protocol : IpProtocol
deriving DecidableEq

/-- The three protocol engines a packet can be delivered to. -/
inductive Engine where
  | icmpv4 | tcp | udp
deriving DecidableEq

/-- The engine selected by the header's protocol field in
`Peer::receive`'s dispatch match. -/
def engineOf : IpProtocol → Engine
  | .ICMPv4 => .icmpv4
  | .TCP => .tcp
  | .UDP => .udp

/-- Embeds the `Peer` state the demultiplexer reads: the configured local
IPv4 address (the engine handles are identified by `Engine` tags in the
output). -/
structure Peer where
  local_ipv4_addr : Ipv4Addr

/-- Embeds `Peer::receive` (peer.rs:89). `Ipv4Header::parse` is an
external collaborator (declared in `inetstack/protocols/ipv4`, not under
`src/`), so it is passed in as the `parse` argument. A dropped packet is
`none`; a delivered one is `some (engine, header, payload)`, recording
the single engine whose `receive(header, payload)` was invoked. -/
def Peer.receive (p : Peer)
    (parse : DemiBuffer → Except Fail (Ipv4Header × DemiBuffer))
    (buf : DemiBuffer) : Option (Engine × Ipv4Header × DemiBuffer) :=
  match parse buf with
  | .error _ => none
  | .ok (header, payload) =>
    if header.dest_addr ≠ p.local_ipv4_addr ∧ ¬ header.dest_addr.is_broadcast then
      none
    else
      some (engineOf header.protocol, header, payload)

/-! ### Helpers for stating error results -/

/-- Whether a result is a failure carrying the given errno. -/
def failsWithErrno {α : Type} (r : Except Fail α) (code : Nat) : Bool :=
  match r with
  | .error f => f.errno == code
  | .ok _ => false

/-! ### Concrete fixtures for evaluating the embedding -/

/-- A concrete local endpoint, 127.0.0.1:80. -/
def demoEndpoint : SocketAddrV4 := ⟨2130706433, 80⟩

/-- A queue bound to `demoEndpoint`. -/
def demoBoundQueue : NetworkQueue :=
  ⟨Domain.IPV4, SockType.STREAM, .Bound, some demoEndpoint, none⟩

/-- A freshly created stream queue. -/
def demoUnboundQueue : NetworkQueue :=
  ⟨Domain.IPV4, SockType.STREAM, .Unbound, none, none⟩

/-- A connected queue with a remote endpoint. -/
def demoConnectedQueue : NetworkQueue :=
  ⟨Domain.IPV4, SockType.STREAM, .Connected, some demoEndpoint, some ⟨2130706434, 9⟩⟩

/-- A state holding one bound queue under descriptor 0, with its `Passive`
identity in the socket-identity index. -/
def demoState : LibOSState :=
  ⟨[(0, demoBoundQueue)], [(SocketId.Passive demoEndpoint, 0)], [], 0⟩

/-- A concrete IPv4 header destined to 10.0.0.1 carrying TCP. -/
def demoHeader : Ipv4Header := ⟨167772161, .TCP⟩

/-- A parse oracle that accepts every buffer as `demoHeader` plus the
buffer as payload. -/
def demoParse : DemiBuffer → Except Fail (Ipv4Header × DemiBuffer) :=
  fun b => .ok (demoHeader, b)

/-- A peer configured with local address 10.0.0.1. -/
def demoPeer : Peer := ⟨167772161⟩

/-! ### Association-list lemmas -/

theorem alistLookup_erase_self {κ α : Type} [DecidableEq κ] (l : List (κ × α)) (k : κ) :
    alistLookup (alistErase l k) k = none := by
  induction l with
  | nil => rfl
  | cons p rest ih =>
    by_cases h : p.1 = k
    · simpa [alistErase, h] using ih
    · simpa [alistErase, alistLookup, h] using ih

theorem alistLookup_insert_self {κ α : Type} [DecidableEq κ] (l : List (κ × α)) (k : κ)
    (v : α) : alistLookup (alistInsert l k v) k = some v := by
  simp [alistInsert, alistLookup]

/-! ### Claim theorems -/

/-- C1: every asynchronous coroutine (accept, connect, push, pushto, pop,
close) re-fetches the queue from the queue table before awaiting the
transport; when the descriptor has been freed, the coroutine completes
with `Failed(EBADF)` for that descriptor, leaves the state untouched, and
never invokes the transport (for every transport oracle). -/
theorem coroutine_refetch_ebadf (s : LibOSState) (qd : Nat)
    (h : alistLookup s.qtable qd = none) :
    (∀ ta, accept_coroutine s qd ta =
      .completed qd (.Failed ⟨EBADF, "bad queue descriptor"⟩) s false) ∧
    (∀ r tc, connect_coroutine s qd r tc =
      .completed qd (.Failed ⟨EBADF, "bad queue descriptor"⟩) s false) ∧
    (∀ b tp, push_coroutine s qd b tp =
      .completed qd (.Failed ⟨EBADF, "bad queue descriptor"⟩) s false) ∧
    (∀ b r tp, pushto_coroutine s qd b r tp =
      .completed qd (.Failed ⟨EBADF, "bad queue descriptor"⟩) s false) ∧
    (∀ sz tp, pop_coroutine s qd sz tp =
      .completed qd (.Failed ⟨EBADF, "bad queue descriptor"⟩) s false) ∧
    (∀ tc, close_coroutine s qd tc =
      .completed qd (.Failed ⟨EBADF, "bad queue descriptor"⟩) s false) := by
  refine ⟨fun ta => ?_, fun r tc => ?_, fun b tp => ?_, fun b r tp => ?_,
    fun sz tp => ?_, fun tc => ?_⟩ <;>
    simp [accept_coroutine, connect_coroutine, push_coroutine, pushto_coroutine,
      pop_coroutine, close_coroutine, qtable_get, h]

/-- C1 witness: on the empty state, descriptor 0 has been freed, and each
coroutine completes with `Failed(EBADF)` without invoking its transport
oracle. -/
theorem coroutine_refetch_ebadf_witness :
    accept_coroutine emptyState 0 (.ok demoConnectedQueue) =
      .completed 0 (.Failed ⟨EBADF, "bad queue descriptor"⟩) emptyState false ∧
    close_coroutine emptyState 0 (.ok ()) =
      .completed 0 (.Failed ⟨EBADF, "bad queue descriptor"⟩) emptyState false :=
  ⟨(coroutine_refetch_ebadf emptyState 0 rfl).1 (.ok demoConnectedQueue),
   (coroutine_refetch_ebadf emptyState 0 rfl).2.2.2.2.2 (.ok ())⟩

/-- C5: a backlog of 0 or greater than SOMAXCONN is rejected with EINVAL
(the range check lives at the PDPIX layer, modelled from the spec), and
the state is unchanged. -/
theorem listen_backlog_einval (s : LibOSState) (qd : Nat) (backlog : Nat)
    (h : backlog = 0 ∨ backlog > SOMAXCONN) :
    pdpix_listen s qd backlog = (.error ⟨EINVAL, "invalid backlog"⟩, s) := by
  unfold pdpix_listen
  rw [if_pos h]

/-- C5 witness: `listen(0)` and `listen(SOMAXCONN+1)` both yield EINVAL. -/
theorem listen_backlog_einval_witness :
    pdpix_listen demoState 0 0 = (.error ⟨EINVAL, "invalid backlog"⟩, demoState) ∧
    pdpix_listen demoState 0 (SOMAXCONN + 1) =
      (.error ⟨EINVAL, "invalid backlog"⟩, demoState) :=
  ⟨listen_backlog_einval demoState 0 0 (Or.inl rfl),
   listen_backlog_einval demoState 0 (SOMAXCONN + 1) (Or.inr (Nat.lt_succ_self _))⟩

/-- C6: a pop size of `Some(0)` or `Some(POP_SIZE_MAX+1)` is rejected with
EINVAL synchronously (the range check lives at the PDPIX layer, modelled
from the spec); the state — and with it the set of scheduled coroutines —
is unchanged. -/
theorem pop_size_einval (s : LibOSState) (qd : Nat) (size : Option Nat)
    (h : size = some 0 ∨ size = some (POP_SIZE_MAX + 1)) :
    pdpix_pop s qd size = (.error ⟨EINVAL, "invalid pop size"⟩, s) := by
  rcases h with h | h <;> subst h <;> simp [pdpix_pop, Nat.lt_succ_self]

/-- C6 witness: `pop(Some(0))` and `pop(Some(POP_SIZE_MAX+1))` both yield
EINVAL with the state unchanged. -/
theorem pop_size_einval_witness :
    pdpix_pop demoState 0 (some 0) = (.error ⟨EINVAL, "invalid pop size"⟩, demoState) ∧
    pdpix_pop demoState 0 (some (POP_SIZE_MAX + 1)) =
      (.error ⟨EINVAL, "invalid pop size"⟩, demoState) :=
  ⟨pop_size_einval demoState 0 (some 0) (Or.inl rfl),
   pop_size_einval demoState 0 (some (POP_SIZE_MAX + 1)) (Or.inr rfl)⟩

/-- C7: push and pushto reject a zero-length buffer with EINVAL
synchronously; the state — and with it the set of scheduled coroutines —
is unchanged. -/
theorem push_zero_length_einval (s : LibOSState) (qd : Nat) (sga : DemiBuffer)
    (remote : SocketAddr) (h : sga.length = 0) :
    push s qd sga = (.error ⟨EINVAL, "zero-length buffer"⟩, s) ∧
    pushto s qd sga remote = (.error ⟨EINVAL, "zero-length buffer"⟩, s) := by
  constructor <;> simp [push, pushto, clone_sgarray, h]

/-- C7 witness: pushing the empty buffer on a live connected descriptor
yields EINVAL and schedules nothing. -/
theorem push_zero_length_einval_witness :
    push demoState 0 [] = (.error ⟨EINVAL, "zero-length buffer"⟩, demoState) ∧
    pushto demoState 0 [] (.V4 demoEndpoint) =
      (.error ⟨EINVAL, "zero-length buffer"⟩, demoState) :=
  push_zero_length_einval demoState 0 [] (.V4 demoEndpoint) rfl

/-- C9: the zero-length check of push and pushto runs before the
descriptor lookup: for an absent descriptor and an empty buffer, the
result is the EINVAL failure, not an EBADF one. -/
theorem push_zero_length_precedes_lookup (s : LibOSState) (qd : Nat)
    (sga : DemiBuffer) (remote : SocketAddr)
    (_hqd : alistLookup s.qtable qd = none) (h : sga.length = 0) :
    ((push s qd sga).1 = .error ⟨EINVAL, "zero-length buffer"⟩ ∧
      failsWithErrno (push s qd sga).1 EBADF = false) ∧
    ((pushto s qd sga remote).1 = .error ⟨EINVAL, "zero-length buffer"⟩ ∧
      failsWithErrno (pushto s qd sga remote).1 EBADF = false) := by
  constructor <;> constructor <;>
    simp [push, pushto, clone_sgarray, h, failsWithErrno, EINVAL, EBADF]

/-- C9 witness: on the empty state (descriptor 0 absent), push and pushto
of the empty buffer return EINVAL, not EBADF. -/
theorem push_zero_length_precedes_lookup_witness :
    (push emptyState 0 []).1 = .error ⟨EINVAL, "zero-length buffer"⟩ ∧
    failsWithErrno (pushto emptyState 0 [] (.V4 demoEndpoint)).1 EBADF = false :=
  ⟨(push_zero_length_precedes_lookup emptyState 0 [] (.V4 demoEndpoint) rfl rfl).1.1,
   (push_zero_length_precedes_lookup emptyState 0 [] (.V4 demoEndpoint) rfl rfl).2.2⟩

/-- C2: the socket-identity index and the queue table stay mutually
consistent. For an IPv4 endpoint: a successful bind inserts the
`Passive` identity, mapping it to the bound descriptor, and is only
possible when the identity was not yet mapped (so no two live queues ever
share a `Passive` identity); a bindable endpoint whose identity is
already mapped makes bind fail with EADDRINUSE; a successful close of a
queue with a local binding removes its identity from the index. -/
theorem bind_close_index_consistency (s : LibOSState) (qd : Nat)
    (la : SocketAddr) (v4 : SocketAddrV4)
    (hv : unwrap_socketaddr la = .ok v4) :
    ((bind s qd la).1 = .ok () →
      alistLookup ((bind s qd la).2).sockIdToQd (SocketId.Passive v4) = some qd ∧
      addr_in_use s v4 = false) ∧
    (v4.ip ≠ Ipv4Addr.UNSPECIFIED → la.port ≠ 0 → addr_in_use s v4 = true →
      (bind s qd la).1 = .error ⟨EADDRINUSE, "address is already bound to a socket"⟩) ∧
    (∀ q l, qtable_get s qd = .ok q → q.local_addr = some l →
      ∃ s2, close_coroutine s qd (.ok ()) = .completed qd .Close s2 true ∧
        alistLookup s2.sockIdToQd (SocketId.Passive l) = none) := by
  refine ⟨?_, ?_, ?_⟩
  · intro hok
    unfold bind at hok ⊢
    rw [hv] at hok ⊢
    by_cases h1 : v4.ip = Ipv4Addr.UNSPECIFIED
    · simp [h1] at hok
    · by_cases h2 : la.port = 0
      · simp [h1, h2] at hok
      · by_cases h3 : addr_in_use s v4 = true
        · simp [h1, h2, h3] at hok
        · cases hq : qtable_get s qd with
          | error e => simp [h1, h2, h3, hq] at hok
          | ok q =>
            cases hb : q.bind v4 with
            | error e => simp [h1, h2, h3, hq, hb] at hok
            | ok q' =>
              refine ⟨?_, by simpa using h3⟩
              simp [h1, h2, h3, hq, hb, insert_socket_id_to_qd, alistLookup_insert_self]
  · intro h1 h2 h3
    simp [bind, hv, h1, h2, h3]
  · intro q l hq hl
    exact ⟨free_queue (remove_socket_id_to_qd s (SocketId.Passive l)) qd,
      by simp [close_coroutine, hq, hl],
      by simp [free_queue, remove_socket_id_to_qd, alistLookup_erase_self]⟩

/-- C2 witness: on a state with 127.0.0.1:80 already mapped, binding a
second descriptor to that endpoint fails with EADDRINUSE, and closing the
bound descriptor removes the identity from the index. -/
theorem bind_close_index_consistency_witness :
    (bind demoState 1 (.V4 demoEndpoint)).1 =
      .error ⟨EADDRINUSE, "address is already bound to a socket"⟩ ∧
    ∃ s2, close_coroutine demoState 0 (.ok ()) = .completed 0 .Close s2 true ∧
      alistLookup s2.sockIdToQd (SocketId.Passive demoEndpoint) = none :=
  ⟨(bind_close_index_consistency demoState 1 (.V4 demoEndpoint) demoEndpoint rfl).2.1
      (by decide) (by decide) (by decide),
   (bind_close_index_consistency demoState 0 (.V4 demoEndpoint) demoEndpoint rfl).2.2
      demoBoundQueue demoEndpoint rfl rfl⟩

/-- C3: when the transport close succeeds, the close coroutine removes the
queue's `Passive` socket identity if the queue had a local binding (and
touches the index not at all otherwise), removes the queue from the queue
table, and produces `Close`; when the transport close fails, it produces
`Failed(error)` and leaves the whole state — the queue table included —
unchanged. -/
theorem close_coroutine_success_failure (s : LibOSState) (qd : Nat)
    (q : NetworkQueue) (hq : qtable_get s qd = .ok q) :
    (∃ s2, close_coroutine s qd (.ok ()) = .completed qd .Close s2 true ∧
      s2.qtable = alistErase s.qtable qd ∧
      s2.sockIdToQd = (match q.local_addr with
        | some l => alistErase s.sockIdToQd (SocketId.Passive l)
        | none => s.sockIdToQd)) ∧
    (∀ e, close_coroutine s qd (.error e) = .completed qd (.Failed e) s true) := by
  constructor
  · cases hl : q.local_addr with
    | some l =>
      exact ⟨free_queue (remove_socket_id_to_qd s (SocketId.Passive l)) qd,
        by simp [close_coroutine, hq, hl],
        by simp [free_queue, remove_socket_id_to_qd],
        by simp [free_queue, remove_socket_id_to_qd, hl]⟩
    | none =>
      exact ⟨free_queue s qd,
        by simp [close_coroutine, hq, hl],
        by simp [free_queue],
        by simp [free_queue, hl]⟩
  · intro e
    simp [close_coroutine, hq]

/-- C3 witness: closing the bound descriptor 0 of the demo state removes
it from the queue table and its identity from the index; a failing
transport close leaves the state unchanged. -/
theorem close_coroutine_success_failure_witness :
    (∃ s2, close_coroutine demoState 0 (.ok ()) = .completed 0 .Close s2 true ∧
      s2.qtable = alistErase demoState.qtable 0 ∧
      s2.sockIdToQd = alistErase demoState.sockIdToQd (SocketId.Passive demoEndpoint)) ∧
    close_coroutine demoState 0 (.error ⟨5, "io error"⟩) =
      .completed 0 (.Failed ⟨5, "io error"⟩) demoState true :=
  ⟨(close_coroutine_success_failure demoState 0 demoBoundQueue rfl).1,
   (close_coroutine_success_failure demoState 0 demoBoundQueue rfl).2 ⟨5, "io error"⟩⟩

/-- C4: the IPv4 demultiplexer delivers a packet to exactly one protocol
engine — the one selected by the header's protocol field — precisely when
the header parses successfully and the destination is the configured
local address or the IPv4 broadcast address; in every other case the
packet is dropped (`none`) and `receive` returns without faulting. -/
theorem peer_receive_dispatch (p : Peer)
    (parse : DemiBuffer → Except Fail (Ipv4Header × DemiBuffer)) (buf : DemiBuffer) :
    (∀ e, parse buf = .error e → p.receive parse buf = none) ∧
    (∀ h pl, parse buf = .ok (h, pl) →
      (h.dest_addr = p.local_ipv4_addr ∨ h.dest_addr.is_broadcast = true) →
      p.receive parse buf = some (engineOf h.protocol, h, pl)) ∧
    (∀ h pl, parse buf = .ok (h, pl) →
      h.dest_addr ≠ p.local_ipv4_addr → h.dest_addr.is_broadcast = false →
      p.receive parse buf = none) ∧
    ((∃ d, p.receive parse buf = some d) ↔
      (∃ h pl, parse buf = .ok (h, pl) ∧
        (h.dest_addr = p.local_ipv4_addr ∨ h.dest_addr.is_broadcast = true))) := by
  refine ⟨?_, ?_, ?_, ?_⟩
  · intro e he
    simp [Peer.receive, he]
  · intro h pl hp hd
    rcases hd with hd | hd <;> simp [Peer.receive, hp, hd]
  · intro h pl hp hd hb
    simp [Peer.receive, hp, hd, hb]
  · constructor
    · rintro ⟨d, hd⟩
      cases hp : parse buf with
      | error e => simp [Peer.receive, hp] at hd
      | ok r =>
        obtain ⟨h, pl⟩ := r
        refine ⟨h, pl, rfl, ?_⟩
        by_cases h1 : h.dest_addr = p.local_ipv4_addr
        · exact Or.inl h1
        · by_cases h2 : h.dest_addr.is_broadcast = true
          · exact Or.inr h2
          · simp [Peer.receive, hp, h1, h2] at hd
    · rintro ⟨h, pl, hp, hd⟩
      rcases hd with hd | hd <;>
        exact ⟨(engineOf h.protocol, h, pl), by simp [Peer.receive, hp, hd]⟩

/-- C4 witness: a TCP packet destined to the local address is delivered to
the TCP engine; the same packet is dropped by a peer with a different
local address. -/
theorem peer_receive_dispatch_witness :
    demoPeer.receive demoParse [1, 2] = some (Engine.tcp, demoHeader, [1, 2]) ∧
    Peer.receive ⟨167772162⟩ demoParse [1, 2] = none :=
  ⟨(peer_receive_dispatch demoPeer demoParse [1, 2]).2.1 demoHeader [1, 2] rfl
      (Or.inl rfl),
   (peer_receive_dispatch ⟨167772162⟩ demoParse [1, 2]).2.2.1 demoHeader [1, 2] rfl
      (by decide) (by decide)⟩

/-- C8: socket rejects every non-IPv4 domain and every type other than
stream or datagram with ENOTSUP, and bind rejects every IPv4 endpoint
with the unspecified address or port zero with ENOTSUP. -/
theorem socket_bind_enotsup (s : LibOSState) :
    (∀ create domain typ,
      domain ≠ Domain.IPV4 ∨ (typ ≠ SockType.STREAM ∧ typ ≠ SockType.DGRAM) →
      failsWithErrno (socket s create domain typ).1 ENOTSUP = true) ∧
    (∀ qd a, a.ip = Ipv4Addr.UNSPECIFIED ∨ a.port = 0 →
      failsWithErrno (bind s qd (.V4 a)).1 ENOTSUP = true) := by
  constructor
  · intro create domain typ h
    rcases h with h | ⟨h1, h2⟩
    · simp [socket, h, failsWithErrno]
    · by_cases hd : domain = Domain.IPV4
      · simp [socket, hd, h1, h2, failsWithErrno]
      · simp [socket, hd, failsWithErrno]
  · intro qd a h
    rcases h with h | h
    · simp [bind, unwrap_socketaddr, h, failsWithErrno]
    · by_cases h1 : a.ip = Ipv4Addr.UNSPECIFIED
      · simp [bind, unwrap_socketaddr, h1, failsWithErrno]
      · simp [bind, unwrap_socketaddr, SocketAddr.port, h1, h, failsWithErrno]

/-- C8 witness: an IPv6 socket, a raw-type socket, a bind to 0.0.0.0:80
and a bind to 127.0.0.1:0 all fail with ENOTSUP. -/
theorem socket_bind_enotsup_witness :
    failsWithErrno (socket emptyState (.ok demoUnboundQueue) Domain.IPV6 SockType.STREAM).1
      ENOTSUP = true ∧
    failsWithErrno (socket emptyState (.ok demoUnboundQueue) Domain.IPV4 3).1
      ENOTSUP = true ∧
    failsWithErrno (bind demoState 0 (.V4 ⟨0, 80⟩)).1 ENOTSUP = true ∧
    failsWithErrno (bind demoState 0 (.V4 ⟨2130706433, 0⟩)).1 ENOTSUP = true :=
  ⟨(socket_bind_enotsup emptyState).1 (.ok demoUnboundQueue) Domain.IPV6 SockType.STREAM
      (Or.inl (by decide)),
   (socket_bind_enotsup emptyState).1 (.ok demoUnboundQueue) Domain.IPV4 3
      (Or.inr (by decide)),
   (socket_bind_enotsup demoState).2 0 ⟨0, 80⟩ (Or.inl rfl),
   (socket_bind_enotsup demoState).2 0 ⟨2130706433, 0⟩ (Or.inr rfl)⟩

/-- C10: bind is atomic on failure — the `Passive` identity is inserted
only after the queue-level bind succeeds, so whenever the queue-level
bind fails the socket-identity index is left unchanged, `addr_in_use` is
unaffected for every endpoint, and the call reports an error. -/
theorem bind_failure_index_unchanged (s : LibOSState) (qd : Nat)
    (la : SocketAddr) (v4 : SocketAddrV4) (q : NetworkQueue) (e : Fail)
    (hv : unwrap_socketaddr la = .ok v4)
    (hq : qtable_get s qd = .ok q)
    (hb : q.bind v4 = .error e) :
    ((bind s qd la).2).sockIdToQd = s.sockIdToQd ∧
    (∀ a, addr_in_use ((bind s qd la).2) a = addr_in_use s a) ∧
    (∃ f, (bind s qd la).1 = .error f) := by
  unfold bind
  rw [hv]
  by_cases h1 : v4.ip = Ipv4Addr.UNSPECIFIED
  · simp [h1]
  · by_cases h2 : la.port = 0
    · simp [h1, h2]
    · by_cases h3 : addr_in_use s v4 = true
      · simp [h1, h2, h3]
      · simp [h1, h2, h3, hq, hb]

/-- C10 witness: re-binding the already-bound descriptor 0 (queue-level
bind fails: the queue is not Unbound) leaves the index unchanged and
reports an error. -/
theorem bind_failure_index_unchanged_witness :
    ((bind demoState 0 (.V4 ⟨2130706434, 90⟩)).2).sockIdToQd = demoState.sockIdToQd ∧
    addr_in_use ((bind demoState 0 (.V4 ⟨2130706434, 90⟩)).2) demoEndpoint =
      addr_in_use demoState demoEndpoint ∧
    ∃ f, (bind demoState 0 (.V4 ⟨2130706434, 90⟩)).1 = .error f :=
  ⟨(bind_failure_index_unchanged demoState 0 (.V4 ⟨2130706434, 90⟩) ⟨2130706434, 90⟩
      demoBoundQueue ⟨EINVAL, "invalid state transition for bind"⟩ rfl rfl rfl).1,
   (bind_failure_index_unchanged demoState 0 (.V4 ⟨2130706434, 90⟩) ⟨2130706434, 90⟩
      demoBoundQueue ⟨EINVAL, "invalid state transition for bind"⟩ rfl rfl rfl).2.1
      demoEndpoint,
   (bind_failure_index_unchanged demoState 0 (.V4 ⟨2130706434, 90⟩) ⟨2130706434, 90⟩
      demoBoundQueue ⟨EINVAL, "invalid state transition for bind"⟩ rfl rfl rfl).2.2⟩

end Demikernel
